import Mathlib

/-!
Shallow embedding of the simulation core of a small Bevy platformer
(src/main.rs).  Geometry and kinematics are modelled over the exact
rationals; each Bevy system becomes a pure function on an explicit
world value.  Commands issued through Bevy's deferred command queue
(entity despawns, text spawns) take effect at the end of the frame,
which the frame function reproduces by applying them after all stages
of the frame have read the pre-despawn entity sets.
-/

-- Batteries marks the rational-number kernel operations irreducible,
-- which blocks kernel evaluation of concrete states; restore the
-- default transparency for this file so that concrete runs of the
-- simulation reduce.
attribute [local semireducible] Rat.add Rat.mul Rat.sub Rat.inv

namespace Platformer

/-- Two-dimensional vector over the rationals (models bevy Vec2 / the
xy-projection of Vec3 used by the game logic). -/
structure Vec2 where
  x : ℚ
  y : ℚ
deriving DecidableEq, Repr

-- Gameplay tuning constants from src/main.rs.
def PLAYER_SIZE : Vec2 := ⟨30, 30⟩
def PLAYER_SPEED : ℚ := 200
def PLAYER_JUMP_VELOCITY : ℚ := 300
def ENEMY_SIZE : Vec2 := ⟨30, 30⟩
def OBSTACLE_SIZE : Vec2 := ⟨40, 40⟩
def GROUND_HEIGHT : ℚ := 20
def GRAVITY_FORCE : ℚ := -500

-- Half-extents, as computed by the systems (sprite custom_size / 2;
-- every spawn sets custom_size to the corresponding constant).
def PLAYER_HALF : Vec2 := ⟨PLAYER_SIZE.x / 2, PLAYER_SIZE.y / 2⟩
def ENEMY_HALF : Vec2 := ⟨ENEMY_SIZE.x / 2, ENEMY_SIZE.y / 2⟩
def OBSTACLE_HALF : Vec2 := ⟨OBSTACLE_SIZE.x / 2, OBSTACLE_SIZE.y / 2⟩

/-- A movable entity: a Transform translation plus a Velocity component. -/
structure Body where
  pos : Vec2
  vel : Vec2
deriving DecidableEq, Repr

/-- Per-frame keyboard snapshot: left/right pressed (Left|A, Right|D) and
a just-pressed jump key (Space|Key2). -/
structure Keys where
  left : Bool
  right : Bool
  jump : Bool
deriving DecidableEq, Repr

/-- The world state: the entity store plus the Score resource, the HUD
banner texts spawned so far, the AppExit request flag, and the GroundData
and window-width resources. -/
structure World where
  player : Option Body
  enemies : List Body
  obstacles : List Vec2
  score : Int
  banners : List String
  exit : Bool
  topY : ℚ
  width : ℚ
deriving DecidableEq, Repr

/-- AABB overlap test, translated from is_colliding in src/main.rs
(strict inequalities on both axes). -/
def is_colliding (posA halfA posB halfB : Vec2) : Prop :=
  posA.x - halfA.x < posB.x + halfB.x ∧
  posA.x + halfA.x > posB.x - halfB.x ∧
  posA.y - halfA.y < posB.y + halfB.y ∧
  posA.y + halfA.y > posB.y - halfB.y

instance (a b c d : Vec2) : Decidable (is_colliding a b c d) :=
  inferInstanceAs (Decidable (_ ∧ _ ∧ _ ∧ _))

/-- The overlap predicate actually used by enemy_collision_system: both
half-size vectors are splatted from their x components
(Vec2::splat(player_half.x), Vec2::splat(enemy_half.x)). -/
def playerEnemyOverlap (phalf ehalf ppos epos : Vec2) : Prop :=
  is_colliding ppos ⟨phalf.x, phalf.x⟩ epos ⟨ehalf.x, ehalf.x⟩

instance (phalf ehalf ppos epos : Vec2) :
    Decidable (playerEnemyOverlap phalf ehalf ppos epos) :=
  inferInstanceAs (Decidable (is_colliding _ _ _ _))

/-- The stomp test of enemy_collision_system: the player's bottom edge is
at or above the enemy's top edge minus the 5-unit window. -/
def stompCond (ppos epos : Vec2) : Prop :=
  ppos.y - PLAYER_HALF.y ≥ epos.y + ENEMY_HALF.y - 5

instance (ppos epos : Vec2) : Decidable (stompCond ppos epos) :=
  inferInstanceAs (Decidable (_ ≥ _))

/-- player_input_system, action on the player body: horizontal velocity
from held keys, jump impulse when a jump key was just pressed and the
player is at ground height. -/
def playerInputBody (k : Keys) (topY : ℚ) (p : Body) : Body :=
  let dir : ℚ := (if k.left then -1 else 0) + (if k.right then 1 else 0)
  let p1 : Body := { p with vel := { p.vel with x := dir * PLAYER_SPEED } }
  if k.jump ∧ p1.pos.y ≤ topY + PLAYER_SIZE.y / 2 then
    { p1 with vel := { p1.vel with y := PLAYER_JUMP_VELOCITY } }
  else p1

def playerInputSystem (k : Keys) (w : World) : World :=
  { w with player := w.player.map (playerInputBody k w.topY) }

/-- apply_gravity_system: only the player's vertical velocity changes. -/
def applyGravitySystem (dt : ℚ) (w : World) : World :=
  { w with
    player := w.player.map fun p =>
      { p with vel := { p.vel with y := p.vel.y + GRAVITY_FORCE * dt } } }

/-- Explicit Euler step of movement_system on one body. -/
def moveBody (dt : ℚ) (b : Body) : Body :=
  { b with pos := ⟨b.pos.x + b.vel.x * dt, b.pos.y + b.vel.y * dt⟩ }

/-- movement_system: every entity with a Velocity (player and enemies). -/
def movementSystem (dt : ℚ) (w : World) : World :=
  { w with
    player := w.player.map (moveBody dt)
    enemies := w.enemies.map (moveBody dt) }

/-- The horizontal wrap of player_wrap_system / enemy_wrap_system. -/
def wrapX (halfW x : ℚ) : ℚ :=
  if x > halfW then -halfW else if x < -halfW then halfW else x

def wrapBody (halfW : ℚ) (b : Body) : Body :=
  { b with pos := { b.pos with x := wrapX halfW b.pos.x } }

def playerWrapSystem (w : World) : World :=
  { w with player := w.player.map (wrapBody (w.width / 2)) }

def enemyWrapSystem (w : World) : World :=
  { w with enemies := w.enemies.map (wrapBody (w.width / 2)) }

/-- enemy_obstacle_collision_system, action on one enemy: for each
obstacle that overlaps the enemy, invert the enemy's horizontal
velocity.  The enemy's position is never written, so successive
iterations test the same position. -/
def reverseOffObstacles (obstacles : List Vec2) (e : Body) : Body :=
  obstacles.foldl
    (fun acc o =>
      if is_colliding acc.pos ENEMY_HALF o OBSTACLE_HALF then
        { acc with vel := { acc.vel with x := -acc.vel.x } }
      else acc)
    e

def enemyObstacleCollisionSystem (w : World) : World :=
  { w with enemies := w.enemies.map (reverseOffObstacles w.obstacles) }

/-- collision_system (player-ground clamp). -/
def groundClampBody (topY : ℚ) (p : Body) : Body :=
  if p.pos.y - PLAYER_SIZE.y / 2 < topY then
    { p with
      pos := { p.pos with y := topY + PLAYER_SIZE.y / 2 }
      vel := { p.vel with y := if p.vel.y < 0 then 0 else p.vel.y } }
  else p

def collisionSystem (w : World) : World :=
  { w with player := w.player.map (groundClampBody w.topY) }

/-- The observable effects of one run of enemy_collision_system: the
score delta, the set of enemies whose despawn was queued, whether a
player despawn was queued, and how many Game Over banners were spawned.
The source loop accumulates these effects one enemy at a time; since
they commute across enemies, recursion on the tail produces the same
effects. -/
structure ECEffects where
  score : Int
  stomped : List Body
  playerDespawned : Bool
  gameOverBanners : Nat
deriving DecidableEq, Repr

def ecEffects (ppos : Vec2) : List Body → ECEffects
  | [] => ⟨0, [], false, 0⟩
  | e :: es =>
    let r := ecEffects ppos es
    if playerEnemyOverlap PLAYER_HALF ENEMY_HALF ppos e.pos then
      if stompCond ppos e.pos then
        ⟨r.score + 100, e :: r.stomped, r.playerDespawned, r.gameOverBanners⟩
      else
        ⟨r.score, r.stomped, true, r.gameOverBanners + 1⟩
    else r

def ecEffectsOpt : Option Body → List Body → ECEffects
  | none, _ => ⟨0, [], false, 0⟩
  | some p, es => ecEffects p.pos es

/-- An enemy whose despawn is queued this frame: it overlaps the player
under the stage's test and the stomp condition holds. -/
def stompedNow (pl : Option Body) (e : Body) : Prop :=
  match pl with
  | none => False
  | some p =>
      playerEnemyOverlap PLAYER_HALF ENEMY_HALF p.pos e.pos ∧
      stompCond p.pos e.pos

instance (pl : Option Body) (e : Body) : Decidable (stompedNow pl e) :=
  match pl with
  | none => isFalse fun h => h
  | some _ => inferInstanceAs (Decidable (_ ∧ _))

/-- obstacle_collision_system, response to one colliding obstacle:
horizontal push to the nearer side, zero the horizontal velocity, and
snap on top when the player's centre is above the obstacle's. -/
def resolveObstacle (p : Body) (o : Vec2) : Body :=
  if is_colliding p.pos PLAYER_HALF o OBSTACLE_HALF then
    let px : ℚ :=
      if p.pos.x < o.x then o.x - OBSTACLE_HALF.x - PLAYER_HALF.x
      else o.x + OBSTACLE_HALF.x + PLAYER_HALF.x
    let p1 : Body :=
      { p with pos := { p.pos with x := px }, vel := { p.vel with x := 0 } }
    if p1.pos.y > o.y then
      { p1 with pos := { p1.pos with y := o.y + OBSTACLE_HALF.y + PLAYER_HALF.y } }
    else p1
  else p

/-- obstacle_collision_system: the obstacle positions are snapshotted
before the player is mutated, then applied one at a time. -/
def obstacleCollisionSystem (w : World) : World :=
  { w with player := w.player.map fun p => w.obstacles.foldl resolveObstacle p }

/-- check_end_game_system. -/
def checkEndGameSystem (w : World) : World :=
  if w.enemies.isEmpty then
    { w with banners := w.banners ++ ["You Win!"], exit := true }
  else if w.player.isNone then
    { w with banners := w.banners ++ ["Game Over"], exit := true }
  else w

/-- The per-enemy action of one frame on a live enemy: integrate, wrap,
then reverse off overlapping obstacles.  No other stage writes an
enemy's components. -/
def enemyStep (dt halfW : ℚ) (obstacles : List Vec2) (e : Body) : Body :=
  reverseOffObstacles obstacles (wrapBody halfW (moveBody dt e))

/-- The kinematic front half of a frame, in registration order:
input, gravity, integration, the two wrap systems, enemy-obstacle
reversal, and the ground clamp. -/
def midFrame (k : Keys) (dt : ℚ) (w : World) : World :=
  collisionSystem
    (enemyObstacleCollisionSystem
      (enemyWrapSystem
        (playerWrapSystem
          (movementSystem dt
            (applyGravitySystem dt
              (playerInputSystem k w))))))

/-- The same front half with the two kinematic stages (gravity and
integration) removed. -/
def midFrameNoKin (k : Keys) (w : World) : World :=
  collisionSystem
    (enemyObstacleCollisionSystem
      (enemyWrapSystem
        (playerWrapSystem
          (playerInputSystem k w))))

/-- The back half of a frame: player-enemy stage, score resource update
(immediate through ResMut), player-obstacle resolution, end-check, and
finally the application of the deferred commands queued by the
player-enemy stage (enemy despawns, player despawn, Game Over texts). -/
def frameTail (w7 : World) : World :=
  let eff := ecEffectsOpt w7.player w7.enemies
  let w8 := { w7 with score := w7.score + eff.score }
  let w9 := obstacleCollisionSystem w8
  let w10 := checkEndGameSystem w9
  { w10 with
    enemies := w7.enemies.filter fun e => !(decide (stompedNow w7.player e))
    player := if eff.playerDespawned then none else w10.player
    banners := w10.banners ++ List.replicate eff.gameOverBanners "Game Over" }

/-- One full frame of the Update schedule. -/
def frame (k : Keys) (dt : ℚ) (w : World) : World :=
  frameTail (midFrame k dt w)

/-- A frame with Δt removed from the pipeline: everything but gravity
and integration. -/
def frameNoKin (k : Keys) (w : World) : World :=
  frameTail (midFrameNoKin k w)

/-- Iterated frames, one (keyboard, Δt) pair per frame. -/
def runFrames : List (Keys × ℚ) → World → World
  | [], w => w
  | p :: rest, w => runFrames rest (frame p.1 p.2 w)

/-- An enemy as spawned by spawn_enemies: on the ground line, horizontal
velocity direction times speed, no vertical velocity. -/
def spawnEnemyBody (topY x speed dir : ℚ) : Body :=
  ⟨⟨x, topY + ENEMY_SIZE.y / 2⟩, ⟨dir * speed, 0⟩⟩

/-- The per-enemy effect of a sequence of frames with per-frame
(Δt, half-width, obstacle snapshot) parameters. -/
def enemyRun : List (ℚ × ℚ × List Vec2) → Body → Body
  | [], e => e
  | p :: rest, e => enemyRun rest (enemyStep p.1 p.2.1 p.2.2 e)

-- Concrete states used by counterexamples and witnesses.  The window is
-- 800 wide and the ground top sits at GROUND_HEIGHT / 2 = 10, as in the
-- running program.

def kNone : Keys := ⟨false, false, false⟩
def kRight : Keys := ⟨false, true, false⟩

/-- Scenario S5 of the spec: player one unit left of the right edge,
running right, no other entities. -/
def wC6 : World :=
  { player := some ⟨⟨399, 25⟩, ⟨200, 0⟩⟩, enemies := [], obstacles := [],
    score := 0, banners := [], exit := false, topY := 10, width := 800 }

/-- One enemy walking right towards an obstacle 40 units away; no
overlap at frame start. -/
def wC5 : World :=
  { player := none, enemies := [⟨⟨0, 25⟩, ⟨100, 0⟩⟩], obstacles := [⟨40, 30⟩],
    score := 0, banners := [], exit := false, topY := 10, width := 800 }

/-- One enemy far from the only obstacle. -/
def wC5w : World :=
  { player := none, enemies := [⟨⟨0, 25⟩, ⟨100, 0⟩⟩], obstacles := [⟨300, 30⟩],
    score := 0, banners := [], exit := false, topY := 10, width := 800 }

def eC5 : Body := ⟨⟨0, 25⟩, ⟨100, 0⟩⟩

/-- Player overlapping two overlapping obstacles. -/
def wC3 : World :=
  { player := some ⟨⟨26, 30⟩, ⟨0, 0⟩⟩, enemies := [],
    obstacles := [⟨0, 30⟩, ⟨50, 30⟩],
    score := 0, banners := [], exit := false, topY := 10, width := 800 }

/-- Player overlapping a single obstacle. -/
def wC3w : World :=
  { player := some ⟨⟨26, 30⟩, ⟨0, 0⟩⟩, enemies := [], obstacles := [⟨0, 30⟩],
    score := 0, banners := [], exit := false, topY := 10, width := 800 }

/-- One grounded enemy patrolling, no player. -/
def wC4 : World :=
  { player := none, enemies := [⟨⟨100, 25⟩, ⟨60, 0⟩⟩], obstacles := [⟨300, 30⟩],
    score := 0, banners := [], exit := false, topY := 10, width := 800 }

/-- A world with all enemies already despawned. -/
def wWin : World :=
  { player := some ⟨⟨0, 25⟩, ⟨0, 0⟩⟩, enemies := [], obstacles := [],
    score := 100, banners := [], exit := false, topY := 10, width := 800 }

/-- A world with a player beyond the right edge and an enemy beyond the
left edge. -/
def wC7 : World :=
  { player := some ⟨⟨500, 25⟩, ⟨200, 0⟩⟩, enemies := [⟨⟨-450, 25⟩, ⟨-60, 0⟩⟩],
    obstacles := [], score := 0, banners := [], exit := false,
    topY := 10, width := 800 }

def pW1 : Vec2 := ⟨0, 50⟩
def eW1 : Body := ⟨⟨0, 25⟩, ⟨0, 0⟩⟩

end Platformer

namespace Platformer

-- Helper lemmas --------------------------------------------------------

theorem reverse_cons (o : Vec2) (obs : List Vec2) (e : Body) :
    reverseOffObstacles (o :: obs) e =
      reverseOffObstacles obs
        (if is_colliding e.pos ENEMY_HALF o OBSTACLE_HALF then
          { e with vel := { e.vel with x := -e.vel.x } }
        else e) := rfl

theorem reverse_pos (obs : List Vec2) : ∀ e : Body,
    (reverseOffObstacles obs e).pos = e.pos := by
  induction obs with
  | nil => intro e; rfl
  | cons o rest ih =>
    intro e
    rw [reverse_cons, ih]
    split_ifs <;> rfl

theorem reverse_vy (obs : List Vec2) : ∀ e : Body,
    (reverseOffObstacles obs e).vel.y = e.vel.y := by
  induction obs with
  | nil => intro e; rfl
  | cons o rest ih =>
    intro e
    rw [reverse_cons, ih]
    split_ifs <;> rfl

theorem reverse_absvx (obs : List Vec2) : ∀ e : Body,
    |(reverseOffObstacles obs e).vel.x| = |e.vel.x| := by
  induction obs with
  | nil => intro e; rfl
  | cons o rest ih =>
    intro e
    rw [reverse_cons, ih]
    split_ifs <;> simp [abs_neg]

theorem reverse_of_no_overlap (obs : List Vec2) : ∀ e : Body,
    (∀ o ∈ obs, ¬ is_colliding e.pos ENEMY_HALF o OBSTACLE_HALF) →
    reverseOffObstacles obs e = e := by
  induction obs with
  | nil => intro e _; rfl
  | cons o rest ih =>
    intro e h
    rw [reverse_cons, if_neg (h o (List.mem_cons_self o rest))]
    exact ih e fun q hq => h q (List.mem_cons_of_mem o hq)

theorem enemyStep_vy (dt halfW : ℚ) (obs : List Vec2) (e : Body) :
    (enemyStep dt halfW obs e).vel.y = e.vel.y := by
  unfold enemyStep; rw [reverse_vy]; rfl

theorem enemyStep_posy (dt halfW : ℚ) (obs : List Vec2) (e : Body) :
    (enemyStep dt halfW obs e).pos.y = e.pos.y + e.vel.y * dt := by
  unfold enemyStep; rw [reverse_pos]; rfl

theorem enemyStep_absvx (dt halfW : ℚ) (obs : List Vec2) (e : Body) :
    |(enemyStep dt halfW obs e).vel.x| = |e.vel.x| := by
  unfold enemyStep; rw [reverse_absvx]; rfl

theorem enemyRun_absvx (L : List (ℚ × ℚ × List Vec2)) : ∀ e : Body,
    |(enemyRun L e).vel.x| = |e.vel.x| := by
  induction L with
  | nil => intro e; rfl
  | cons p rest ih =>
    intro e
    show |(enemyRun rest (enemyStep p.1 p.2.1 p.2.2 e)).vel.x| = |e.vel.x|
    rw [ih, enemyStep_absvx]

theorem midFrame_enemies (k : Keys) (dt : ℚ) (w : World) :
    (midFrame k dt w).enemies =
      w.enemies.map (enemyStep dt (w.width / 2) w.obstacles) := by
  simp [midFrame, collisionSystem, enemyObstacleCollisionSystem,
    enemyWrapSystem, playerWrapSystem, movementSystem, applyGravitySystem,
    playerInputSystem, List.map_map, Function.comp, enemyStep]

theorem frame_enemies (k : Keys) (dt : ℚ) (w : World) :
    (frame k dt w).enemies =
      (midFrame k dt w).enemies.filter
        (fun e => !(decide (stompedNow (midFrame k dt w).player e))) := rfl

theorem checkEndGame_topY (w : World) :
    (checkEndGameSystem w).topY = w.topY := by
  unfold checkEndGameSystem; split_ifs <;> rfl

theorem frame_topY (k : Keys) (dt : ℚ) (w : World) :
    (frame k dt w).topY = w.topY := by
  show (checkEndGameSystem
    (obstacleCollisionSystem
      { midFrame k dt w with
        score := (midFrame k dt w).score +
          (ecEffectsOpt (midFrame k dt w).player (midFrame k dt w).enemies).score })).topY
    = w.topY
  rw [checkEndGame_topY]
  rfl

theorem moveBody_zero (b : Body) : moveBody 0 b = b := by
  simp [moveBody]

theorem gravity_zero (w : World) : applyGravitySystem 0 w = w := by
  have hb : ∀ b : Body,
      ({ b with vel := { b.vel with y := b.vel.y + GRAVITY_FORCE * 0 } } : Body) = b := by
    intro b; simp
  simp [applyGravitySystem, hb]

theorem movement_zero (w : World) : movementSystem 0 w = w := by
  have h : moveBody (0 : ℚ) = id := funext moveBody_zero
  simp [movementSystem, h]

theorem resolveObstacle_sep (p : Body) (o : Vec2) :
    ¬ is_colliding (resolveObstacle p o).pos PLAYER_HALF o OBSTACLE_HALF := by
  simp only [resolveObstacle]
  split_ifs with hc hx h3 h4 <;> intro h <;>
    first
      | exact hc h
      | (obtain ⟨h1, h2, h3, h4⟩ := h
         dsimp only at h1 h2 h3 h4
         linarith)

theorem ecEffects_score (ppos : Vec2) (es : List Body) :
    (ecEffects ppos es).score =
      100 * (es.countP fun b =>
        decide (playerEnemyOverlap PLAYER_HALF ENEMY_HALF ppos b.pos ∧
          stompCond ppos b.pos)) := by
  induction es with
  | nil => rfl
  | cons e rest ih =>
    by_cases ho : playerEnemyOverlap PLAYER_HALF ENEMY_HALF ppos e.pos
    · by_cases hs : stompCond ppos e.pos
      · simp only [ecEffects, if_pos ho, if_pos hs, List.countP_cons, ih]
        simp only [ho, hs, and_self, decide_true_eq_true]
        push_cast
        ring
      · simp only [ecEffects, if_pos ho, if_neg hs, List.countP_cons, ih]
        simp [hs]
    · simp only [ecEffects, if_neg ho, List.countP_cons, ih]
      simp [ho]

theorem ecEffects_stomped (ppos : Vec2) (es : List Body) (e : Body) (he : e ∈ es)
    (ho : playerEnemyOverlap PLAYER_HALF ENEMY_HALF ppos e.pos)
    (hs : stompCond ppos e.pos) :
    e ∈ (ecEffects ppos es).stomped := by
  induction es with
  | nil => cases he
  | cons a rest ih =>
    rcases List.mem_cons.mp he with h | hmem
    · subst h
      simp only [ecEffects, if_pos ho, if_pos hs]
      exact List.mem_cons_self _ _
    · have hrec := ih hmem
      by_cases ho2 : playerEnemyOverlap PLAYER_HALF ENEMY_HALF ppos a.pos
      · by_cases hs2 : stompCond ppos a.pos
        · simp only [ecEffects, if_pos ho2, if_pos hs2]
          exact List.mem_cons_of_mem _ hrec
        · simp only [ecEffects, if_pos ho2, if_neg hs2]
          exact hrec
      · simp only [ecEffects, if_neg ho2]
        exact hrec

theorem ecEffects_side (ppos : Vec2) (es : List Body) (e : Body) (he : e ∈ es)
    (ho : playerEnemyOverlap PLAYER_HALF ENEMY_HALF ppos e.pos)
    (hs : ¬ stompCond ppos e.pos) :
    (ecEffects ppos es).playerDespawned = true ∧
      0 < (ecEffects ppos es).gameOverBanners := by
  induction es with
  | nil => cases he
  | cons a rest ih =>
    rcases List.mem_cons.mp he with h | hmem
    · subst h
      simp only [ecEffects, if_pos ho, if_neg hs]
      exact ⟨trivial, Nat.succ_pos _⟩
    · obtain ⟨h1, h2⟩ := ih hmem
      by_cases ho2 : playerEnemyOverlap PLAYER_HALF ENEMY_HALF ppos a.pos
      · by_cases hs2 : stompCond ppos a.pos
        · simp only [ecEffects, if_pos ho2, if_pos hs2]
          exact ⟨h1, h2⟩
        · simp only [ecEffects, if_pos ho2, if_neg hs2]
          exact ⟨trivial, Nat.succ_pos _⟩
      · simp only [ecEffects, if_neg ho2]
        exact ⟨h1, h2⟩

-- Claim theorems -------------------------------------------------------

/-- C1: in the player-enemy collision stage, every enemy whose AABB
overlaps the player's is stomped (queued for despawn, contributing
exactly 100 to the score: the stage's score delta is 100 times the
number of overlapping enemies meeting the stomp condition) when
Player.y - PLAYER_SIZE.y/2 is at least Enemy.y + ENEMY_SIZE.y/2 - 5,
ties included; otherwise the player despawn is queued and a Game Over
banner is spawned. -/
theorem c1_player_enemy_stage (ppos : Vec2) (es : List Body) (e : Body)
    (he : e ∈ es) (hov : is_colliding ppos PLAYER_HALF e.pos ENEMY_HALF) :
    (ecEffects ppos es).score =
      100 * (es.countP fun b =>
        decide (playerEnemyOverlap PLAYER_HALF ENEMY_HALF ppos b.pos ∧
          stompCond ppos b.pos)) ∧
    (stompCond ppos e.pos → e ∈ (ecEffects ppos es).stomped) ∧
    (¬ stompCond ppos e.pos →
      (ecEffects ppos es).playerDespawned = true ∧
        0 < (ecEffects ppos es).gameOverBanners) := by
  have ho : playerEnemyOverlap PLAYER_HALF ENEMY_HALF ppos e.pos := by
    have hp : (⟨PLAYER_HALF.x, PLAYER_HALF.x⟩ : Vec2) = PLAYER_HALF := by decide
    have hq : (⟨ENEMY_HALF.x, ENEMY_HALF.x⟩ : Vec2) = ENEMY_HALF := by decide
    unfold playerEnemyOverlap
    rw [hp, hq]
    exact hov
  exact ⟨ecEffects_score ppos es,
    fun hs => ecEffects_stomped ppos es e he ho hs,
    fun hs => ecEffects_side ppos es e he ho hs⟩

theorem c1_witness :
    (ecEffects pW1 [eW1]).score =
      100 * (([eW1] : List Body).countP fun b =>
        decide (playerEnemyOverlap PLAYER_HALF ENEMY_HALF pW1 b.pos ∧
          stompCond pW1 b.pos)) ∧
    eW1 ∈ (ecEffects pW1 [eW1]).stomped :=
  ⟨(c1_player_enemy_stage pW1 [eW1] eW1 (by decide) (by decide)).1,
   (c1_player_enemy_stage pW1 [eW1] eW1 (by decide) (by decide)).2.1 (by decide)⟩

/-- C2: the end-check stage posts a "You Win!" banner and requests
termination when no enemies remain (regardless of the player, so Win
takes precedence), posts a "Game Over" banner and requests termination
when enemies remain but the player entity is gone, and otherwise posts
nothing and requests nothing. -/
theorem c2_end_check (w : World) :
    (w.enemies = [] →
      (checkEndGameSystem w).banners = w.banners ++ ["You Win!"] ∧
        (checkEndGameSystem w).exit = true) ∧
    (w.enemies ≠ [] → w.player = none →
      (checkEndGameSystem w).banners = w.banners ++ ["Game Over"] ∧
        (checkEndGameSystem w).exit = true) ∧
    (w.enemies ≠ [] → w.player ≠ none →
      (checkEndGameSystem w).banners = w.banners ∧
        (checkEndGameSystem w).exit = w.exit) := by
  refine ⟨fun h => ?_, fun h hp => ?_, fun h hp => ?_⟩
  · simp [checkEndGameSystem, h]
  · simp [checkEndGameSystem, List.isEmpty_iff, h, hp]
  · simp [checkEndGameSystem, List.isEmpty_iff, h, Option.isNone_iff_eq_none, hp]

theorem c2_witness :
    (checkEndGameSystem wWin).banners = wWin.banners ++ ["You Win!"] ∧
      (checkEndGameSystem wWin).exit = true :=
  (c2_end_check wWin).1 rfl

/-- C3 fails as stated: with two overlapping obstacles, resolving the
second pushes the player back into the first, so a player-obstacle
overlap with an obstacle present at the start of the stage survives the
stage. -/
theorem c3_counterexample :
    (obstacleCollisionSystem wC3).player = some ⟨⟨15, 30⟩, ⟨0, 0⟩⟩ ∧
    (⟨0, 30⟩ : Vec2) ∈ wC3.obstacles ∧
    is_colliding (⟨15, 30⟩ : Vec2) PLAYER_HALF ⟨0, 30⟩ OBSTACLE_HALF := by
  decide

/-- C3 amended: after the player-obstacle resolution stage, the player's
AABB does not overlap the LAST obstacle in the stage's processing order;
in particular the stage removes all overlap whenever at most one
obstacle is present.  Overlap with earlier obstacles can be
reintroduced by later corrections. -/
theorem c3_last_obstacle_separated (w : World) (p : Body) (os : List Vec2)
    (o : Vec2) (hobs : w.obstacles = os ++ [o]) (hp : w.player = some p) :
    ∃ q : Body, (obstacleCollisionSystem w).player = some q ∧
      ¬ is_colliding q.pos PLAYER_HALF o OBSTACLE_HALF := by
  refine ⟨w.obstacles.foldl resolveObstacle p, ?_, ?_⟩
  · simp [obstacleCollisionSystem, hp]
  · rw [hobs, List.foldl_append]
    simp only [List.foldl_cons, List.foldl_nil]
    exact resolveObstacle_sep _ o

theorem c3_witness :
    ∃ q : Body, (obstacleCollisionSystem wC3w).player = some q ∧
      ¬ is_colliding q.pos PLAYER_HALF ⟨0, 30⟩ OBSTACLE_HALF :=
  c3_last_obstacle_separated wC3w ⟨⟨26, 30⟩, ⟨0, 0⟩⟩ [] ⟨0, 30⟩ rfl rfl

theorem frame_enemy_ground (k : Keys) (dt : ℚ) (w : World)
    (h : ∀ e ∈ w.enemies, e.pos.y = w.topY + ENEMY_SIZE.y / 2 ∧ e.vel.y = 0) :
    ∀ e ∈ (frame k dt w).enemies,
      e.pos.y = w.topY + ENEMY_SIZE.y / 2 ∧ e.vel.y = 0 := by
  intro b hb
  rw [frame_enemies] at hb
  have hb2 := List.mem_of_mem_filter hb
  rw [midFrame_enemies] at hb2
  obtain ⟨e, he, hmap⟩ := List.mem_map.mp hb2
  obtain ⟨hy, hv⟩ := h e he
  subst hmap
  refine ⟨?_, ?_⟩
  · rw [enemyStep_posy, hv, hy]
    ring
  · rw [enemyStep_vy, hv]

/-- C4: enemies never leave the ground line.  If every enemy sits at
GroundData.top_y + ENEMY_SIZE.y/2 with zero vertical velocity (as
spawn_enemies establishes), then after any sequence of frames -- any
key input, any time steps -- every surviving enemy still sits exactly
there with zero vertical velocity: gravity touches only the player and
no stage moves an enemy vertically. -/
theorem c4_enemies_grounded (w : World) (L : List (Keys × ℚ))
    (h : ∀ e ∈ w.enemies, e.pos.y = w.topY + ENEMY_SIZE.y / 2 ∧ e.vel.y = 0) :
    ∀ e ∈ (runFrames L w).enemies,
      e.pos.y = (runFrames L w).topY + ENEMY_SIZE.y / 2 ∧ e.vel.y = 0 := by
  induction L generalizing w with
  | nil => exact h
  | cons p rest ih =>
    show ∀ e ∈ (runFrames rest (frame p.1 p.2 w)).enemies, _
    apply ih (frame p.1 p.2 w)
    intro e he
    rw [frame_topY]
    exact frame_enemy_ground p.1 p.2 w h e he

theorem c4_witness :
    (⟨⟨101, 25⟩, ⟨60, 0⟩⟩ : Body).pos.y =
      (runFrames [(kNone, 1/60)] wC4).topY + ENEMY_SIZE.y / 2 ∧
    (⟨⟨101, 25⟩, ⟨60, 0⟩⟩ : Body).vel.y = 0 :=
  c4_enemies_grounded wC4 [(kNone, 1/60)] (by decide)
    ⟨⟨101, 25⟩, ⟨60, 0⟩⟩ (by decide)

/-- C5 fails as stated: the enemy of wC5 overlaps no obstacle at frame
start (its start position is 40 units from the only obstacle), its
horizontal velocity starts at +100, yet after one frame -- having moved
into the obstacle before the reversal stage ran -- its horizontal
velocity is -100: the sign flipped. -/
theorem c5_counterexample :
    wC5.enemies = [⟨⟨0, 25⟩, ⟨100, 0⟩⟩] ∧
    wC5.obstacles = [⟨40, 30⟩] ∧
    ¬ is_colliding (⟨0, 25⟩ : Vec2) ENEMY_HALF ⟨40, 30⟩ OBSTACLE_HALF ∧
    (frame kNone (1/10) wC5).enemies = [⟨⟨10, 25⟩, ⟨-100, 0⟩⟩] ∧
    (0 : ℚ) < 100 ∧ (-100 : ℚ) < 0 := by
  decide

/-- C5 amended: sign preservation holds with the hypothesis taken at
the moment the enemy-obstacle stage runs, after integration and wrap:
an enemy that overlaps no obstacle at its post-integration, post-wrap
position keeps its exact horizontal velocity through the frame (and its
frame-end state is its enemyStep image inside the frame's enemy list).
Overlap-freedom at frame start does not suffice, because integration
can move the enemy into an obstacle within the same frame. -/
theorem c5_sign_preserved (w : World) (k : Keys) (dt : ℚ) (e : Body)
    (he : e ∈ w.enemies)
    (hno : ∀ o ∈ w.obstacles,
      ¬ is_colliding (wrapBody (w.width / 2) (moveBody dt e)).pos
        ENEMY_HALF o OBSTACLE_HALF) :
    (enemyStep dt (w.width / 2) w.obstacles e).vel.x = e.vel.x ∧
    enemyStep dt (w.width / 2) w.obstacles e ∈ (midFrame k dt w).enemies := by
  constructor
  · unfold enemyStep
    rw [reverse_of_no_overlap _ _ hno]
    rfl
  · rw [midFrame_enemies]
    exact List.mem_map_of_mem _ he

theorem c5_witness :
    (enemyStep (1/10) (wC5w.width / 2) wC5w.obstacles eC5).vel.x = eC5.vel.x ∧
    enemyStep (1/10) (wC5w.width / 2) wC5w.obstacles eC5 ∈
      (midFrame kNone (1/10) wC5w).enemies :=
  c5_sign_preserved wC5w kNone (1/10) eC5 (by decide) (by decide)

/-- C6 fails as stated: from the S5 scenario state wC6 (player at
(W/2 - 1, 25) running right, Δt = 1/30) the frame leaves the player at
x = -400 = -W/2 exactly; the overshoot remainder 1217/3 - 400 = 17/3 is
discarded, so x differs from -W/2 + remainder. -/
theorem c6_counterexample :
    (frame kRight (1/30) wC6).player = some ⟨⟨-400, 25⟩, ⟨200, 0⟩⟩ ∧
    (399 : ℚ) + 200 * (1/30) = 1217/3 ∧
    (-400 : ℚ) ≠ -(wC6.width / 2) + (1217/3 - wC6.width / 2) := by
  decide

/-- C6 amended: after one frame from the S5 state the player's x
coordinate is exactly -W/2 (the wrap discards the overshoot rather than
preserving it), and the bound abs x ≤ W/2 holds. -/
theorem c6_wrap_discards_overshoot :
    ((frame kRight (1/30) wC6).player.map fun p => p.pos.x) = some (-400) ∧
    (-400 : ℚ) = -(wC6.width / 2) ∧
    |(-400 : ℚ)| ≤ wC6.width / 2 := by
  decide

theorem wrapX_idem (halfW x : ℚ) (h : 0 ≤ halfW) :
    wrapX halfW (wrapX halfW x) = wrapX halfW x := by
  unfold wrapX
  split_ifs <;> first | rfl | linarith

theorem wrapBody_idem (halfW : ℚ) (h : 0 ≤ halfW) (b : Body) :
    wrapBody halfW (wrapBody halfW b) = wrapBody halfW b := by
  simp [wrapBody, wrapX_idem halfW _ h]

/-- C7: the wrap stage is idempotent.  For every world with a
nonnegative window width, running the player wrap twice equals running
it once, and likewise for the enemy wrap: positions set to plus or
minus W/2 are fixpoints of a second application. -/
theorem c7_wrap_idempotent (w : World) (h : 0 ≤ w.width) :
    playerWrapSystem (playerWrapSystem w) = playerWrapSystem w ∧
    enemyWrapSystem (enemyWrapSystem w) = enemyWrapSystem w := by
  have hw : 0 ≤ w.width / 2 := by linarith
  constructor
  · simp [playerWrapSystem, Option.map_map, Function.comp_def,
      wrapBody_idem (w.width / 2) hw]
  · simp [enemyWrapSystem, List.map_map, Function.comp_def,
      wrapBody_idem (w.width / 2) hw]

theorem c7_witness :
    playerWrapSystem (playerWrapSystem wC7) = playerWrapSystem wC7 ∧
    enemyWrapSystem (enemyWrapSystem wC7) = enemyWrapSystem wC7 :=
  c7_wrap_idempotent wC7 (by decide)

/-- C8 fails as stated: the kinematics stages have no special case for
nonpositive Δt.  At Δt = -1 (which is ≤ 0) gravity changes the player's
velocity and integration changes positions, instead of leaving them
unchanged. -/
theorem c8_counterexample :
    (-1 : ℚ) ≤ 0 ∧
    applyGravitySystem (-1) wC6 ≠ wC6 ∧
    movementSystem (-1) wC6 ≠ wC6 := by
  decide

/-- C8 amended: only Δt = 0 is a kinematic no-op.  With Δt = 0 the
gravity and integration stages leave every velocity and position
unchanged, and the full frame degenerates to the frame without its
kinematic stages, so all collision stages and the end-check still run;
a negative Δt instead integrates backwards. -/
theorem c8_zero_dt_noop (k : Keys) (w : World) :
    applyGravitySystem 0 w = w ∧
    movementSystem 0 w = w ∧
    frame k 0 w = frameNoKin k w := by
  refine ⟨gravity_zero w, movement_zero w, ?_⟩
  unfold frame frameNoKin midFrame midFrameNoKin
  rw [gravity_zero, movement_zero]

/-- C9 fails as stated: the splatted overlap test coincides with the
true per-axis AABB test for the non-square half-extent pair (1,2) and
(3,2) as well -- the summed extents agree on both axes -- so width equal
to height is not necessary for coincidence. -/
theorem c9_counterexample :
    (∀ ppos epos : Vec2,
      playerEnemyOverlap ⟨1, 2⟩ ⟨3, 2⟩ ppos epos ↔
        is_colliding ppos ⟨1, 2⟩ epos ⟨3, 2⟩) ∧
    (1 : ℚ) ≠ 2 := by
  constructor
  · intro ppos epos
    unfold playerEnemyOverlap is_colliding
    dsimp only
    constructor <;> rintro ⟨h1, h2, h3, h4⟩ <;>
      exact ⟨by linarith, by linarith, by linarith, by linarith⟩
  · decide

/-- C9 amended: the player-enemy overlap test of the stomp/side-hit
stage uses the horizontal half-extent on both axes for both bodies, and
it coincides with the true per-axis AABB overlap whenever each sprite's
width equals its height (true for the 30x30 defaults); squareness is
sufficient but not necessary. -/
theorem c9_splatted_overlap (ph eh ppos epos : Vec2) :
    (playerEnemyOverlap ph eh ppos epos ↔
      is_colliding ppos ⟨ph.x, ph.x⟩ epos ⟨eh.x, eh.x⟩) ∧
    (ph.x = ph.y → eh.x = eh.y →
      (playerEnemyOverlap ph eh ppos epos ↔ is_colliding ppos ph epos eh)) := by
  refine ⟨Iff.rfl, fun hp he => ?_⟩
  unfold playerEnemyOverlap is_colliding
  dsimp only
  rw [hp, he]

theorem c9_witness :
    playerEnemyOverlap PLAYER_HALF ENEMY_HALF ⟨0, 25⟩ ⟨10, 25⟩ ↔
      is_colliding ⟨0, 25⟩ PLAYER_HALF ⟨10, 25⟩ ENEMY_HALF :=
  (c9_splatted_overlap PLAYER_HALF ENEMY_HALF ⟨0, 25⟩ ⟨10, 25⟩).2
    (by decide) (by decide)

/-- C10: an enemy spawned with speed s in [50, 150) keeps the absolute
value of its horizontal velocity equal to s through every frame of its
lifetime -- the only stage that writes it is the enemy-obstacle
reversal, which negates it -- and in particular its horizontal velocity
is never zero. -/
theorem c10_speed_invariant (topY x s dir : ℚ) (L : List (ℚ × ℚ × List Vec2))
    (h50 : 50 ≤ s) (h150 : s < 150) (hdir : dir = 1 ∨ dir = -1) :
    |(enemyRun L (spawnEnemyBody topY x s dir)).vel.x| = s ∧
    (enemyRun L (spawnEnemyBody topY x s dir)).vel.x ≠ 0 := by
  have h0s : (0 : ℚ) ≤ s := by linarith
  have habs : |(enemyRun L (spawnEnemyBody topY x s dir)).vel.x| = s := by
    rw [enemyRun_absvx]
    show |dir * s| = s
    rcases hdir with h | h <;> subst h <;>
      simp [abs_of_nonneg h0s]
  refine ⟨habs, fun h0 => ?_⟩
  rw [h0] at habs
  simp at habs
  linarith

theorem c10_witness :
    |(enemyRun [((1:ℚ)/60, 400, [⟨40, 30⟩])] (spawnEnemyBody 10 0 100 1)).vel.x|
      = 100 ∧
    (enemyRun [((1:ℚ)/60, 400, [⟨40, 30⟩])] (spawnEnemyBody 10 0 100 1)).vel.x
      ≠ 0 :=
  c10_speed_invariant 10 0 100 1 [((1:ℚ)/60, 400, [⟨40, 30⟩])]
    (by decide) (by decide) (Or.inl rfl)

end Platformer
